import Mathlib

/-!
Verification of the STL-generation backend's slicing pipeline
(`backend/app/services/slicer.py`).

The development shallowly embeds the Python module: Python scalar/JSON
values become the inductive type `PyVal`; Python dicts become association
lists (`SDict`) whose operations mirror CPython dict semantics (lookup of
the unique key, in-place update preserving insertion order, append of new
keys); fallible Python code (dynamic type errors, filesystem reads,
subprocess execution) is modelled with `Except` and explicit environment
records describing the outcome of each external effect.
-/

set_option maxHeartbeats 1000000

/-- Python values as they occur in this module: JSON scalars and
containers.  Floats are modelled as rationals (all arithmetic performed by
the module is exact on the decimal literals it manipulates). -/
inductive PyVal where
  | none
  | bool (b : Bool)
  | int (n : Int)
  | float (q : ℚ)
  | str (s : String)
  | list (xs : List PyVal)
  | dict (xs : List (String × PyVal))

/-- A Python dict of setting-name to value, as an insertion-ordered
association list (CPython dicts preserve insertion order and have unique
keys). -/
abbrev SDict := List (String × PyVal)

/-- Keys of a dict, in insertion order. -/
def keysOf (d : SDict) : List String := d.map Prod.fst

/-- Dict lookup `d[k]` returning the first binding (the only one for a
well-formed dict). -/
def alookup (k : String) : SDict → Option PyVal
  | [] => Option.none
  | (k0, v0) :: rest => if k0 = k then some v0 else alookup k rest

/-- Membership test `k in d` on a dict. -/
def containsKey (d : SDict) (k : String) : Bool :=
  d.any (fun kv => kv.1 = k)

/-- Assignment `d[k] = v`: replaces the value of an existing key in place
(keeping its position, as CPython does) or appends a new binding. -/
def setItem : SDict → String → PyVal → SDict
  | [], k, v => [(k, v)]
  | (k0, v0) :: rest, k, v =>
    if k0 = k then (k0, v) :: rest else (k0, v0) :: setItem rest k v

/-- Python `d.setdefault(k, v)`: insert `v` under `k` only when `k` is absent. -/
def setdefault (d : SDict) (k : String) (v : PyVal) : SDict :=
  if containsKey d k then d else d ++ [(k, v)]

/-- Model of `merged = base.copy(); merged.update(overrides)` from
`merge_settings` (slicer.py lines 114-128): every binding of `overrides`
is written into a copy of `base` in iteration order. -/
def merge_settings (base_settings overrides : SDict) : SDict :=
  overrides.foldl (fun acc kv => setItem acc kv.1 kv.2) base_settings

/-- Python whitespace characters recognised by `str.strip()` (the ASCII
ones; the module only ever manipulates ASCII G-code text). -/
def pyIsSpace (c : Char) : Bool :=
  c = ' ' || c = '\t' || c = '\n' || c = '\r' || c = '\x0b' || c = '\x0c'

/-- Test `value.strip() == ""`: true iff the string has only whitespace. -/
def stripIsEmpty (s : String) : Bool :=
  s.toList.all pyIsSpace

/-- The body of the `normalize_settings` loop (slicer.py lines 142-152)
for a single value: `Option.none` means the entry is skipped. -/
def normalizeEntry : PyVal → Option PyVal
  | PyVal.none => Option.none
  | PyVal.str s => if stripIsEmpty s then Option.none else some (PyVal.str s)
  | PyVal.bool b => some (PyVal.str (if b then "true" else "false"))
  | v => some v

/-- Model of `normalize_settings` (slicer.py lines 131-153): drop `None` values and
whitespace-only strings, lowercase-stringify booleans, keep everything
else, preserving iteration order. -/
def normalize_settings (settings : SDict) : SDict :=
  settings.filterMap (fun kv => (normalizeEntry kv.2).map (fun v => (kv.1, v)))

-- G-code text utilities ---------------------------------------------------

/-- Python str.startswith on the character level. -/
def pyStartswith (s pre : String) : Bool :=
  pre.toList.isPrefixOf s.toList

/-- Helper for splitlines: accumulates the current line (reversed). -/
def splitlinesAux : List Char → List Char → List (List Char)
  | [], acc => if acc.isEmpty then [] else [acc.reverse]
  | '\r' :: '\n' :: rest, acc => acc.reverse :: splitlinesAux rest []
  | '\n' :: rest, acc => acc.reverse :: splitlinesAux rest []
  | '\r' :: rest, acc => acc.reverse :: splitlinesAux rest []
  | c :: rest, acc => splitlinesAux rest (c :: acc)

/-- Python str.splitlines restricted to the newline conventions that occur
in G-code text (LF, CRLF, CR): no element for a trailing terminator. -/
def pySplitlines (s : String) : List String :=
  (splitlinesAux s.toList []).map (fun cs => String.mk cs)

/-- Python sep.join(list). -/
def pyJoin (sep : String) : List String → String
  | [] => ""
  | [x] => x
  | x :: xs => x ++ sep ++ pyJoin sep xs

/-- The skirt-removal loop of slicer.py lines 344-357, over the split
lines, with the in_skirt flag as first argument: a line opening a skirt
region is itself dropped and suppression runs until a new feature-type or
layer marker, which is kept. -/
def removeSkirtSections : Bool → List String → List String
  | _, [] => []
  | inSkirt, line :: rest =>
    if pyStartswith line ";TYPE:SKIRT" then removeSkirtSections true rest
    else if inSkirt then
      if pyStartswith line ";TYPE:" || pyStartswith line ";LAYER:" then
        line :: removeSkirtSections false rest
      else removeSkirtSections true rest
    else line :: removeSkirtSections false rest

/-- The whole second post-processing pass (slicer.py lines 343-358):
splitlines, skirt-section removal, join with LF. -/
def skirtRemove (text : String) : String :=
  pyJoin "\n" (removeSkirtSections false (pySplitlines text))

-- Python runtime model: errors, conversions, dynamic attribute access ------

/-- The Python exceptions the embedded code can raise. -/
inductive PyErr where
  | typeError
  | attributeError
  | keyError
  | valueError
deriving DecidableEq

/-- Value of a digit string (callers guarantee all characters are
digits). -/
def digitsVal (cs : List Char) : Nat :=
  cs.foldl (fun acc c => acc * 10 + (c.toNat - 48)) 0

/-- Strip leading and trailing Python whitespace from a character list. -/
def trimChars (cs : List Char) : List Char :=
  ((cs.dropWhile pyIsSpace).reverse.dropWhile pyIsSpace).reverse

/-- Python int(str) for plain decimal integer literals (underscore
separators and non-decimal bases are not used by this module's inputs). -/
def parsePyInt (s : String) : Option Int :=
  let cs := trimChars s.toList
  let (sign, body) : Int × List Char :=
    match cs with
    | '-' :: rest => (-1, rest)
    | '+' :: rest => (1, rest)
    | _ => (1, cs)
  if body.isEmpty || !body.all Char.isDigit then Option.none
  else some (sign * (digitsVal body : Int))

/-- Python float(str) for plain decimal literals (exponent forms are not
used by this module's inputs). -/
def parseDecimal (s : String) : Option ℚ :=
  let cs := trimChars s.toList
  let (sign, body) : ℚ × List Char :=
    match cs with
    | '-' :: rest => (-1, rest)
    | '+' :: rest => (1, rest)
    | _ => (1, cs)
  let intPart := body.takeWhile (fun c => c != '.')
  let rest := body.drop intPart.length
  match rest with
  | [] =>
    if intPart.isEmpty || !intPart.all Char.isDigit then Option.none
    else some (sign * (digitsVal intPart : ℚ))
  | _ :: frac =>
    if (intPart.isEmpty && frac.isEmpty) || !intPart.all Char.isDigit
        || !frac.all Char.isDigit then Option.none
    else some (sign * ((digitsVal intPart : ℚ)
        + (digitsVal frac : ℚ) / (10 : ℚ) ^ frac.length))

/-- Python float(value). -/
def pyFloatConv : PyVal → Except PyErr ℚ
  | PyVal.int n => Except.ok (n : ℚ)
  | PyVal.float q => Except.ok q
  | PyVal.bool b => Except.ok (if b then 1 else 0)
  | PyVal.str s =>
    match parseDecimal s with
    | some q => Except.ok q
    | Option.none => Except.error PyErr.valueError
  | _ => Except.error PyErr.typeError

/-- Python int(value): floats truncate toward zero. -/
def pyIntConv : PyVal → Except PyErr Int
  | PyVal.int n => Except.ok n
  | PyVal.float q => Except.ok (q.num / (q.den : Int))
  | PyVal.bool b => Except.ok (if b then 1 else 0)
  | PyVal.str s =>
    match parsePyInt s with
    | some n => Except.ok n
    | Option.none => Except.error PyErr.valueError
  | _ => Except.error PyErr.typeError

/-- Left-pad a number with zeros to the given digit count. -/
def padZeros (digits : Nat) (k : Nat) : String :=
  let s := toString k
  String.mk (List.replicate (digits - s.length) '0') ++ s

/-- Python fixed-point formatting (the .2f / .1f format specifiers).  The
values this module formats are exact multiples of the format precision, so
no rounding tie-break is observable. -/
def fmtFixed (digits : Nat) (q : ℚ) : String :=
  let n : ℤ := round (q * ((10 : ℚ) ^ digits))
  let m := n.natAbs
  (if n < 0 then "-" else "")
    ++ toString (m / 10 ^ digits) ++ "." ++ padZeros digits (m % 10 ^ digits)

/-- Python str(float): fixed rendering with trailing zeros removed but at
least one fraction digit (exact for the decimal values this module
handles; the binary-float shortest-repr subtleties do not arise). -/
def pyStrFloat (q : ℚ) : String :=
  let m := (|q| * (10 : ℚ) ^ (10 : Nat)).floor.natAbs
  let ip := m / 10 ^ (10 : Nat)
  let fracDigits := (padZeros 10 (m % 10 ^ (10 : Nat))).toList
  let kept := (fracDigits.reverse.dropWhile (fun c => c = '0')).reverse
  (if q < 0 then "-" else "") ++ toString ip ++ "."
    ++ (if kept.isEmpty then "0" else String.mk kept)

/-- Python str(value) for the scalars this module stringifies (container
reprs never occur in the settings it formats). -/
def pyStr : PyVal → String
  | PyVal.none => "None"
  | PyVal.bool b => if b then "True" else "False"
  | PyVal.int n => toString n
  | PyVal.float q => pyStrFloat q
  | PyVal.str s => s
  | PyVal.list _ => "[list]"
  | PyVal.dict _ => "\x7bdict\x7d"

/-- Replacement engine for Python str.replace: consumes fuel (one unit
per character of the subject), replacing each non-overlapping occurrence
left to right.  The module's patterns are never empty. -/
def pyReplaceGo (pat rep : List Char) : Nat → List Char → List Char
  | _, [] => []
  | 0, l => l
  | Nat.succ n, c :: rest =>
    if pat.isPrefixOf (c :: rest) then
      rep ++ pyReplaceGo pat rep n ((c :: rest).drop pat.length)
    else c :: pyReplaceGo pat rep n rest

/-- Python s.replace(pat, rep). -/
def pyReplaceStr (s pat rep : String) : String :=
  String.mk (pyReplaceGo pat.toList rep.toList s.toList.length s.toList)

/-- Per-setting value formatting for -s arguments (slicer.py lines
259-263): strings get embedded newlines escaped to the two-character
sequence backslash n, every other value is stringified. -/
def safeVal : PyVal → String
  | PyVal.str s => pyReplaceStr s "\n" "\\n"
  | v => pyStr v

/-- Python obj.get(key, default): only dicts have a get method. -/
def pyDictGet (v : PyVal) (k : String) (d : PyVal) : Except PyErr PyVal :=
  match v with
  | PyVal.dict m => Except.ok ((alookup k m).getD d)
  | _ => Except.error PyErr.attributeError

/-- Python "key in obj" for a string key: key membership on dicts,
substring test on strings, element equality on lists, TypeError
otherwise. -/
def pyContainsStr (v : PyVal) (s : String) : Except PyErr Bool :=
  match v with
  | PyVal.dict m => Except.ok (containsKey m s)
  | PyVal.str t => Except.ok (decide (s.toList <:+: t.toList))
  | PyVal.list xs => Except.ok (xs.any (fun x => match x with
      | PyVal.str t => t == s
      | _ => false))
  | _ => Except.error PyErr.typeError

/-- Python obj[key] with a string key: only dicts accept it. -/
def pySubscriptStr (v : PyVal) (s : String) : Except PyErr PyVal :=
  match v with
  | PyVal.dict m =>
    match alookup s m with
    | some w => Except.ok w
    | Option.none => Except.error PyErr.keyError
  | _ => Except.error PyErr.typeError

-- The definition-document accessor (slicer.py lines 26-47) ----------------

/-- Model of _load_json (slicer.py lines 26-31).  The argument is the parse
outcome of the file: none when the file is missing, unreadable, or not
valid JSON, in which case the loader swallows the exception and returns
an empty dict; some v when the file parses to the JSON value v. -/
def load_json (parsed : Option PyVal) : PyVal :=
  parsed.getD (PyVal.dict [])

/-- Model of _get_override_value (slicer.py lines 33-47) with Python dynamic
errors made explicit: reads overrides[name], preferring the value field
over default_value, falling back to the caller default. -/
def get_override_value (def_json : PyVal) (name : String) (default : PyVal) :
    Except PyErr PyVal :=
  match pyDictGet def_json "overrides" (PyVal.dict []) with
  | Except.error e => Except.error e
  | Except.ok overrides =>
    match pyContainsStr overrides name with
    | Except.error e => Except.error e
    | Except.ok cond =>
      if cond then
        match pySubscriptStr overrides name with
        | Except.error e => Except.error e
        | Except.ok entry =>
          match entry with
          | PyVal.dict m =>
            match alookup "value" m with
            | some v => Except.ok v
            | Option.none =>
              match alookup "default_value" m with
              | some v => Except.ok v
              | Option.none => Except.ok default
          | _ => Except.ok default
      else Except.ok default

/-- The composed definition-override accessor: load the document (lenient)
then read the named override. -/
def overrideAccessor (parsed : Option PyVal) (name : String) (default : PyVal) :
    Except PyErr PyVal :=
  get_override_value (load_json parsed) name default

-- Safe start-sequence synthesis (slicer.py lines 50-90) --------------------

/-- Margin along X kept by the purge line (slicer.py line 62). -/
def marginX : ℚ := 2

/-- Margin along Y kept by the purge line (slicer.py line 63). -/
def marginY : ℚ := 20

/-- The geometry and temperature computed by _compute_safe_start_gcode
(slicer.py lines 55-72): x1, x2, yFront, yBack, first-layer temperature.
Width is read (and can raise) but does not enter the coordinates. -/
def computeSafeStartData (def_json : PyVal) (final_settings : SDict) :
    Except PyErr (ℚ × ℚ × ℚ × ℚ × Int) :=
  match get_override_value def_json "machine_width" (PyVal.int 220) with
  | Except.error e => Except.error e
  | Except.ok wv =>
    match pyFloatConv wv with
    | Except.error e => Except.error e
    | Except.ok _width =>
      match get_override_value def_json "machine_depth" (PyVal.int 220) with
      | Except.error e => Except.error e
      | Except.ok dv =>
        match pyFloatConv dv with
        | Except.error e => Except.error e
        | Except.ok depth =>
          match pyIntConv ((alookup "material_print_temperature_layer_0"
              final_settings).getD (PyVal.int 215)) with
          | Except.error e => Except.error e
          | Except.ok temp =>
            Except.ok (marginX, marginX + 4/10, marginY, depth - marginY, temp)

/-- Model of _compute_safe_start_gcode (slicer.py lines 50-90): the purge-line
start sequence rendered from the computed geometry. -/
def compute_safe_start_gcode (def_json : PyVal) (final_settings : SDict) :
    Except PyErr String :=
  match computeSafeStartData def_json final_settings with
  | Except.error e => Except.error e
  | Except.ok (x1, x2, yFront, yBack, temp) =>
    Except.ok ("M220 S100 ;Reset Feedrate\n"
      ++ "M221 S100 ;Reset Flowrate\n\n"
      ++ "G28 ;Home\n\n"
      ++ "G92 E0 ;Reset Extruder\n"
      ++ "G1 Z2.0 F3000 ;Move Z Axis up\n"
      ++ "G1 X" ++ fmtFixed 2 x1 ++ " Y" ++ fmtFixed 2 yFront
      ++ " Z0.28 F5000.0 ;Move to start position (inside bed)\n"
      ++ "M109 S" ++ toString temp ++ " ;Heat to first-layer temp\n"
      ++ "G1 X" ++ fmtFixed 2 x1 ++ " Y" ++ fmtFixed 2 yBack
      ++ " Z0.28 F1500.0 E15 ;First purge line\n"
      ++ "G1 X" ++ fmtFixed 2 x2 ++ " Y" ++ fmtFixed 2 yBack
      ++ " Z0.28 F5000.0 ;Move to side a little\n"
      ++ "G1 X" ++ fmtFixed 2 x2 ++ " Y" ++ fmtFixed 2 yFront
      ++ " Z0.28 F1500.0 E30 ;Second purge line\n"
      ++ "G92 E0 ;Reset Extruder\n"
      ++ "G1 E-1 F1800 ;Retract a bit\n"
      ++ "G1 Z2.0 F3000 ;Move Z Axis up\n"
      ++ "G1 E0 F1800\n")

-- The slicing pipeline (slice_stl_to_gcode, slicer.py lines 156-371) ------

/-- Pipeline-level failures.  The Python code raises FileNotFoundError or
RuntimeError; the spec calls them ProfileNotFound, DefinitionNotFound,
EngineInvocationFailed and OutputMissing.  pyError carries an uncaught
Python exception from the dynamic operations. -/
inductive SliceError where
  | profileNotFound
  | definitionNotFound (path : String)
  | engineFailed (stderr : String)
  | outputMissing
  | pyError (e : PyErr)

/-- A parsed profile document as the pipeline consumes it: the settings
mapping and the optional metadata.printer_definition entry
(slicer.py lines 177-183). -/
structure ProfileDoc where
  settings : SDict
  printerDefinition : Option String

/-- Model of get_profile_settings (slicer.py lines 433-449): the argument is the
profile file content for the requested name, none when the file is
absent, in which case the FileNotFoundError becomes profileNotFound. -/
def get_profile_settings (doc : Option ProfileDoc) :
    Except SliceError ProfileDoc :=
  match doc with
  | Option.none => Except.error SliceError.profileNotFound
  | some d => Except.ok d

/-- The printer definition used when the profile declares none, and by
the missing-profile fallback (slicer.py lines 180-187). -/
def defaultPrinterDefinition : String := "creality_ender3v3ke.def.json"

/-- The filesystem and configuration one slicing request observes. -/
structure SliceEnv where
  profileDoc : Option ProfileDoc
  defExists : String → Bool
  printerDefParse : Option PyVal
  curaResources : String

/-- DEFINITIONS_DIR (slicer.py line 17). -/
def definitionsDir (env : SliceEnv) : String :=
  env.curaResources ++ "/definitions"

/-- EXTRUDERS_DIR (slicer.py line 19). -/
def extrudersDir (env : SliceEnv) : String :=
  env.curaResources ++ "/extruders"

/-- Base settings and printer definition resolved from the profile with
the FileNotFoundError fallback of slicer.py lines 176-187. -/
def resolvedProfile (env : SliceEnv) : SDict × String :=
  match get_profile_settings env.profileDoc with
  | Except.ok doc =>
    (doc.settings, doc.printerDefinition.getD defaultPrinterDefinition)
  | Except.error _ => ([], defaultPrinterDefinition)

/-- pathlib stem: final component without its last extension (dotfiles
without a second dot do not occur among job names). -/
def pathStem (p : String) : String :=
  let name := (p.toList.reverse.takeWhile (fun c => c != '/')).reverse
  if '.' ∈ name then
    String.mk ((name.reverse.dropWhile (fun c => c != '.')).drop 1).reverse
  else String.mk name

/-- JOBS_DIR (slicer.py line 8). -/
def jobsDir : String := "/app/jobs"

/-- The output artifact path of a request (slicer.py lines 172-173). -/
def gcodePathOf (stlPath : String) : String :=
  jobsDir ++ "/" ++ pathStem stlPath ++ ".gcode"

/-- The four definition-stack paths (slicer.py lines 197-203). -/
def baseDefPathOf (env : SliceEnv) : String :=
  definitionsDir env ++ "/fdmprinter.def.json"

def printerDefPathOf (env : SliceEnv) : String :=
  definitionsDir env ++ "/" ++ (resolvedProfile env).2

def fdmExtruderBasePathOf (env : SliceEnv) : String :=
  definitionsDir env ++ "/fdmextruder.def.json"

def extruderDefPathOf (env : SliceEnv) : String :=
  extrudersDir env ++ "/creality_base_extruder_0.def.json"

/-- The existence loop of slicer.py lines 205-208: raise on the first
missing definition file, scanning in source order. -/
def checkDefinitions (ex : String → Bool) : List String → Except SliceError Unit
  | [] => Except.ok ()
  | p :: ps =>
    if ex p then checkDefinitions ex ps
    else Except.error (SliceError.definitionNotFound p)

/-- The CuraEngine argument vector (slicer.py lines 211-222 plus the -s
extension loop of lines 259-264). -/
def buildCommand (baseDefPath fdmExtruderBasePath extruderDefPath
    printerDefPath gcodePath stlPath : String) (final_settings : SDict) :
    List String :=
  ["CuraEngine", "slice", "-v",
   "-j", baseDefPath,
   "-j", fdmExtruderBasePath,
   "-j", extruderDefPath,
   "-j", printerDefPath,
   "-o", gcodePath,
   "-l", stlPath]
  ++ final_settings.foldl
      (fun acc kv => acc ++ ["-s", kv.1 ++ "=" ++ safeVal kv.2]) []

/-- The safety and print-policy defaults of slicer.py lines 227-252, each
applied only when the caller did not supply the key. -/
def applyDefaults (user_overrides final_settings : SDict) : SDict :=
  let fs := setdefault final_settings "roofing_layer_count" (PyVal.int 0)
  let fs := setdefault fs "flooring_layer_count" (PyVal.int 0)
  let fs := if containsKey user_overrides "adhesion_type" then fs
            else setItem fs "adhesion_type" (PyVal.str "none")
  let fs := if containsKey user_overrides "brim_line_count" then fs
            else setItem fs "brim_line_count" (PyVal.int 0)
  let fs := if containsKey user_overrides "skirt_line_count" then fs
            else setItem fs "skirt_line_count" (PyVal.int 0)
  let fs := if containsKey user_overrides "speed_infill" then fs
            else setItem fs "speed_infill" (PyVal.int 120)
  let fs := if containsKey user_overrides "speed_wall_0" then fs
            else setItem fs "speed_wall_0" (PyVal.int 60)
  let fs := if containsKey user_overrides "speed_wall_x" then fs
            else setItem fs "speed_wall_x" (PyVal.int 120)
  let fs := if containsKey user_overrides "speed_travel" then fs
            else setItem fs "speed_travel" (PyVal.int 200)
  let fs := setdefault fs "material_print_temperature_layer_0" (PyVal.int 215)
  if containsKey user_overrides "machine_center_is_zero" then fs
  else setItem fs "machine_center_is_zero" (PyVal.bool false)

/-- slicer.py lines 253-255: install the computed safe start G-code
unless the caller supplied one; an exception from the computation
escapes. -/
def startGcodeStep (user_overrides : SDict) (env : SliceEnv) (fs : SDict) :
    Except PyErr SDict :=
  if containsKey user_overrides "machine_start_gcode" then Except.ok fs
  else
    match compute_safe_start_gcode (load_json env.printerDefParse) fs with
    | Except.error e => Except.error e
    | Except.ok g => Except.ok (setItem fs "machine_start_gcode" (PyVal.str g))

/-- Stage one of slice_stl_to_gcode (slicer.py lines 172-264): profile
load with fallback, merge, normalize, definition-stack existence checks,
default injection, safe start-gcode synthesis, argument-vector
construction.  Except.ok means the engine is invoked with the returned
command; the resolved settings ride along for post-processing. -/
def slicePrepare (env : SliceEnv) (settings : Option SDict)
    (stlPath : String) : Except SliceError (List String × SDict) :=
  match checkDefinitions env.defExists
      [baseDefPathOf env, printerDefPathOf env,
       fdmExtruderBasePathOf env, extruderDefPathOf env] with
  | Except.error e => Except.error e
  | Except.ok _ =>
    match startGcodeStep (settings.getD []) env
        (applyDefaults (settings.getD [])
          (normalize_settings
            (merge_settings (resolvedProfile env).1 (settings.getD [])))) with
    | Except.error e => Except.error (SliceError.pyError e)
    | Except.ok fsFinal =>
      Except.ok (buildCommand (baseDefPathOf env) (fdmExtruderBasePathOf env)
        (extruderDefPathOf env) (printerDefPathOf env)
        (gcodePathOf stlPath) stlPath fsFinal, fsFinal)

/-- Outcome of the engine run and of each filesystem effect during
post-processing. -/
structure RunEnv where
  engineExit : Int
  engineStderr : String
  outputExists : Bool
  readOk : Bool
  write1Ok : Bool
  write2Ok : Bool
  printerDefParse : Option PyVal

/-- The literal substitution pass (slicer.py lines 291-335): re-read the
machine definition for its depth, resolve the first-layer temperature,
then apply the five fixed front-matter replacements. -/
def postSubstitutions (def_json : PyVal) (final_settings : SDict)
    (text : String) : Except PyErr String :=
  match get_override_value def_json "machine_depth" (PyVal.int 220) with
  | Except.error e => Except.error e
  | Except.ok dv =>
    match pyFloatConv dv with
    | Except.error e => Except.error e
    | Except.ok machineDepth =>
      let temp0 := pyStr ((alookup "material_print_temperature_layer_0"
        final_settings).getD (PyVal.int 215))
      let yBack := fmtFixed 1 (max 20 (machineDepth - 20))
      let t1 := pyReplaceStr text
        "G1 X-2.0 Y20 Z0.28 F5000.0 ;Move to start position"
        "G1 X2.0 Y20 Z0.28 F5000.0 ;Move to start position (inside bed)"
      let t2 := pyReplaceStr t1
        "M109 S{material_print_temperature_layer_0}"
        ("M109 S" ++ temp0)
      let t3 := pyReplaceStr t2
        "G1 X-2.0 Y145.0 Z0.28 F1500.0 E15 ;Draw the first line"
        ("G1 X2.0 Y" ++ yBack ++ " Z0.28 F1500.0 E15 ;First purge line")
      let t4 := pyReplaceStr t3
        "G1 X-1.7 Y145.0 Z0.28 F5000.0 ;Move to side a little"
        ("G1 X2.4 Y" ++ yBack ++ " Z0.28 F5000.0 ;Move to side a little")
      let t5 := pyReplaceStr t4
        "G1 X-1.7 Y20 Z0.28 F1500.0 E30 ;Draw the second line"
        "G1 X2.4 Y20 Z0.28 F1500.0 E30 ;Second purge line"
      Except.ok t5

/-- The inner skirt try/except (slicer.py lines 342-363): clean new_text,
write only when changed; a failed write is swallowed, keeping the text
already on disk. -/
def skirtPhase (write2Ok : Bool) (disk1 newText : String) : String :=
  let finalText := skirtRemove newText
  if finalText = newText then disk1
  else if write2Ok then finalText
  else disk1

/-- The outer best-effort post-processing block (slicer.py lines
287-366), returning the final on-disk text: a failing read, a failing
substitution computation, or a failing first write abort the whole block
(outer except), a failing second write aborts only the skirt step. -/
def postPhase (renv : RunEnv) (final_settings : SDict) (disk : String) :
    String :=
  if renv.readOk then
    match postSubstitutions (load_json renv.printerDefParse)
        final_settings disk with
    | Except.error _ => disk
    | Except.ok newText =>
      if newText = disk then skirtPhase renv.write2Ok disk newText
      else if renv.write1Ok then skirtPhase renv.write2Ok newText newText
      else disk
  else disk

/-- Stage two of slice_stl_to_gcode (slicer.py lines 273-371): run the
engine, verify the artifact, post-process best-effort and return the
artifact path.  The String component is the final on-disk G-code text. -/
def runEngineAndPost (renv : RunEnv) (final_settings : SDict)
    (gcodePath disk : String) : Except SliceError String × String :=
  if renv.engineExit = 0 then
    if renv.outputExists then
      (Except.ok gcodePath, postPhase renv final_settings disk)
    else (Except.error SliceError.outputMissing, disk)
  else (Except.error (SliceError.engineFailed renv.engineStderr), disk)

/-- slice_stl_to_gcode end to end: preparation, then engine run and
post-processing; a preparation error leaves the disk untouched and the
engine never runs. -/
def slice_stl_to_gcode (env : SliceEnv) (renv : RunEnv)
    (settings : Option SDict) (stlPath : String) (disk : String) :
    Except SliceError String × String :=
  match slicePrepare env settings stlPath with
  | Except.error e => (Except.error e, disk)
  | Except.ok cmdAndSettings =>
    runEngineAndPost renv cmdAndSettings.2 (gcodePathOf stlPath) disk

-- Basic dict lemmas -------------------------------------------------------

theorem alookup_eq_none_of_not_mem (k : String) (d : SDict)
    (h : k ∉ keysOf d) : alookup k d = Option.none := by
  induction d with
  | nil => rfl
  | cons kv rest ih =>
    simp only [keysOf, List.map_cons, List.mem_cons] at h
    push_neg at h
    obtain ⟨h1, h2⟩ := h
    cases kv with
    | mk k0 v0 =>
      simp only [alookup]
      rw [if_neg (by simpa using Ne.symm h1)]
      exact ih (by simpa [keysOf] using h2)

theorem keysOf_normalize_sub (d : SDict) :
    keysOf (normalize_settings d) ⊆ keysOf d := by
  intro k hk
  simp only [keysOf, normalize_settings, List.mem_map] at hk ⊢
  obtain ⟨⟨k1, v1⟩, hmem, hk1⟩ := hk
  simp only [List.mem_filterMap] at hmem
  obtain ⟨⟨k0, v0⟩, hmem0, heq⟩ := hmem
  cases h : normalizeEntry v0 with
  | none => simp [h] at heq
  | some w =>
    rw [h] at heq
    have heq2 : (k0, w) = (k1, v1) := by simpa using heq
    have hk01 : k0 = k1 := by simpa using congrArg Prod.fst heq2
    subst hk01
    exact ⟨(k0, v0), hmem0, hk1⟩

/-- If a value survives one pass of normalization, a second pass keeps it
verbatim. -/
theorem normalizeEntry_fix (v w : PyVal) (h : normalizeEntry v = some w) :
    normalizeEntry w = some w := by
  cases v with
  | none => simp [normalizeEntry] at h
  | bool b =>
    simp only [normalizeEntry] at h
    cases h
    cases b <;> simp [normalizeEntry, stripIsEmpty, pyIsSpace]
  | str s =>
    simp only [normalizeEntry] at h
    by_cases hs : stripIsEmpty s
    · simp [hs] at h
    · simp only [hs] at h
      simp only [Bool.false_eq_true, if_false] at h
      cases h
      simp [normalizeEntry, hs]
  | int n => simp only [normalizeEntry] at h; cases h; rfl
  | float q => simp only [normalizeEntry] at h; cases h; rfl
  | list xs => simp only [normalizeEntry] at h; cases h; rfl
  | dict xs => simp only [normalizeEntry] at h; cases h; rfl

theorem containsKey_iff_mem (d : SDict) (k : String) :
    containsKey d k = true ↔ k ∈ keysOf d := by
  simp only [containsKey, keysOf, List.any_eq_true, List.mem_map, decide_eq_true_eq]

theorem alookup_setItem_self (d : SDict) (k : String) (v : PyVal) :
    alookup k (setItem d k v) = some v := by
  induction d with
  | nil => simp [setItem, alookup]
  | cons kv rest ih =>
    cases kv with
    | mk k0 v0 =>
      by_cases h : k0 = k
      · simp [setItem, h, alookup]
      · simp [setItem, h, alookup, ih]

theorem alookup_setItem_ne (d : SDict) (k k2 : String) (v : PyVal)
    (h : k2 ≠ k) : alookup k2 (setItem d k v) = alookup k2 d := by
  induction d with
  | nil => simp [setItem, alookup, Ne.symm h]
  | cons kv rest ih =>
    cases kv with
    | mk k0 v0 =>
      by_cases h0 : k0 = k
      · subst h0
        simp [setItem, alookup, Ne.symm h]
      · by_cases h2 : k0 = k2
        · simp [setItem, h0, alookup, h2, h]
        · simp [setItem, h0, alookup, h2, ih]

theorem keysOf_setItem (d : SDict) (k : String) (v : PyVal) :
    keysOf (setItem d k v)
      = if k ∈ keysOf d then keysOf d else keysOf d ++ [k] := by
  induction d with
  | nil => simp [setItem, keysOf]
  | cons kv rest ih =>
    cases kv with
    | mk k0 v0 =>
      by_cases h : k0 = k
      · subst h
        simp [setItem, keysOf]
      · have hne : ¬ (k = k0) := fun hh => h hh.symm
        simp only [setItem, if_neg h, keysOf, List.map_cons]
        simp only [keysOf] at ih
        rw [ih]
        by_cases hm : k ∈ List.map Prod.fst rest
        · simp [hm, hne, List.mem_cons]
        · simp [hm, hne, List.mem_cons]

theorem nodup_keysOf_setItem (d : SDict) (k : String) (v : PyVal)
    (h : (keysOf d).Nodup) : (keysOf (setItem d k v)).Nodup := by
  rw [keysOf_setItem]
  by_cases hm : k ∈ keysOf d
  · simpa [hm] using h
  · simp [hm, List.nodup_append, h]

theorem merge_settings_cons (base : SDict) (kv : String × PyVal) (ov : SDict) :
    merge_settings base (kv :: ov) = merge_settings (setItem base kv.1 kv.2) ov := rfl

theorem nodup_keysOf_merge (ov base : SDict) (hb : (keysOf base).Nodup) :
    (keysOf (merge_settings base ov)).Nodup := by
  induction ov generalizing base with
  | nil => exact hb
  | cons kv rest ih =>
    rw [merge_settings_cons]
    exact ih _ (nodup_keysOf_setItem _ _ _ hb)

theorem alookup_merge_of_not_mem (ov base : SDict) (k : String)
    (h : k ∉ keysOf ov) :
    alookup k (merge_settings base ov) = alookup k base := by
  induction ov generalizing base with
  | nil => rfl
  | cons kv rest ih =>
    simp only [keysOf, List.map_cons, List.mem_cons] at h
    push_neg at h
    rw [merge_settings_cons, ih _ (by simpa [keysOf] using h.2),
      alookup_setItem_ne _ _ _ _ h.1]

theorem alookup_merge_of_mem (ov base : SDict) (k : String)
    (ho : (keysOf ov).Nodup) (h : k ∈ keysOf ov) :
    alookup k (merge_settings base ov) = alookup k ov := by
  induction ov generalizing base with
  | nil => cases h
  | cons kv rest ih =>
    cases kv with
    | mk k0 v0 =>
      simp only [keysOf, List.map_cons, List.nodup_cons] at ho
      by_cases hk : k0 = k
      · subst hk
        rw [merge_settings_cons,
          alookup_merge_of_not_mem _ _ _ (by simpa [keysOf] using ho.1),
          alookup_setItem_self]
        simp [alookup]
      · have hkr : k ∈ keysOf rest := by
          simp only [keysOf, List.map_cons, List.mem_cons] at h
          rcases h with h | h
          · exact absurd h.symm hk
          · simpa [keysOf] using h
        rw [merge_settings_cons, ih _ (by simpa [keysOf] using ho.2) hkr]
        simp [alookup, hk]

/-- Lookup-level description of normalization on a well-formed dict: the
result binds each looked-up value through the entry normalizer. -/
theorem alookup_normalize (d : SDict) (hnd : (keysOf d).Nodup) (k : String) :
    alookup k (normalize_settings d) = (alookup k d).bind normalizeEntry := by
  induction d with
  | nil => rfl
  | cons kv rest ih =>
    cases kv with
    | mk k0 v0 =>
      simp only [keysOf, List.map_cons, List.nodup_cons] at hnd
      have ihr := ih (by simpa [keysOf] using hnd.2)
      by_cases hk : k0 = k
      · subst hk
        cases h : normalizeEntry v0 with
        | none =>
          have hln : alookup k0 (normalize_settings rest) = Option.none :=
            alookup_eq_none_of_not_mem _ _
              (fun hmem => hnd.1 (by simpa [keysOf] using keysOf_normalize_sub rest hmem))
          have hl : normalize_settings ((k0, v0) :: rest) = normalize_settings rest := by
            simp [normalize_settings, List.filterMap_cons, h]
          rw [hl, hln]
          simp [alookup, h]
        | some w =>
          simp [normalize_settings, List.filterMap_cons, h, alookup]
      · cases h : normalizeEntry v0 with
        | none =>
          simpa [normalize_settings, List.filterMap_cons, h, alookup, hk] using ihr
        | some w =>
          simpa [normalize_settings, List.filterMap_cons, h, alookup, hk] using ihr

/-- C4: the settings normalization function is idempotent: for every
settings mapping x, normalize(normalize(x)) equals normalize(x). -/
theorem normalize_settings_idempotent (x : SDict) :
    normalize_settings (normalize_settings x) = normalize_settings x := by
  induction x with
  | nil => rfl
  | cons kv rest ih =>
    cases kv with
    | mk k v =>
      cases h : normalizeEntry v with
      | none => simpa [normalize_settings, h] using ih
      | some w =>
        have hw := normalizeEntry_fix v w h
        simp only [normalize_settings, List.filterMap_cons, h, Option.map_some] at ih ⊢
        simp [hw, ih]

/-- C5: on a well-formed settings dict, normalization drops exactly the
entries whose value is None or a whitespace-only string, sends a boolean
value to the literal string true/false, and keeps every other value
unchanged (numbers pass through, non-blank strings exactly as given); no
entry is invented for keys the input does not have. -/
theorem normalize_settings_behavior (d : SDict)
    (hnd : (keysOf d).Nodup) (k : String) :
    (alookup k d = some PyVal.none →
        alookup k (normalize_settings d) = Option.none)
  ∧ (∀ s, alookup k d = some (PyVal.str s) → stripIsEmpty s = true →
        alookup k (normalize_settings d) = Option.none)
  ∧ (∀ b, alookup k d = some (PyVal.bool b) →
        alookup k (normalize_settings d)
          = some (PyVal.str (if b then "true" else "false")))
  ∧ (∀ s, alookup k d = some (PyVal.str s) → stripIsEmpty s = false →
        alookup k (normalize_settings d) = some (PyVal.str s))
  ∧ (∀ n, alookup k d = some (PyVal.int n) →
        alookup k (normalize_settings d) = some (PyVal.int n))
  ∧ (∀ q, alookup k d = some (PyVal.float q) →
        alookup k (normalize_settings d) = some (PyVal.float q))
  ∧ (alookup k d = Option.none →
        alookup k (normalize_settings d) = Option.none) := by
  have h := alookup_normalize d hnd k
  refine ⟨?_, ?_, ?_, ?_, ?_, ?_, ?_⟩
  · intro hv; rw [h, hv]; rfl
  · intro s hv hs; rw [h, hv]; simp [normalizeEntry, hs]
  · intro b hv; rw [h, hv]; rfl
  · intro s hv hs; rw [h, hv]; simp [normalizeEntry, hs]
  · intro n hv; rw [h, hv]; rfl
  · intro q hv; rw [h, hv]; rfl
  · intro hv; rw [h, hv]; rfl

/-- Witness for C5 at a concrete dict: the boolean entry becomes the
string true, the None entry is dropped, the number passes through. -/
theorem normalize_settings_behavior_witness :
    alookup "c" (normalize_settings [("a", PyVal.none), ("b", PyVal.str " "),
        ("c", PyVal.bool true), ("d", PyVal.str "x"), ("e", PyVal.int 3)])
      = some (PyVal.str "true")
  ∧ alookup "a" (normalize_settings [("a", PyVal.none), ("b", PyVal.str " "),
        ("c", PyVal.bool true), ("d", PyVal.str "x"), ("e", PyVal.int 3)])
      = Option.none
  ∧ alookup "e" (normalize_settings [("a", PyVal.none), ("b", PyVal.str " "),
        ("c", PyVal.bool true), ("d", PyVal.str "x"), ("e", PyVal.int 3)])
      = some (PyVal.int 3) := by
  refine ⟨?_, ?_, ?_⟩
  · exact (normalize_settings_behavior [("a", PyVal.none), ("b", PyVal.str " "),
      ("c", PyVal.bool true), ("d", PyVal.str "x"), ("e", PyVal.int 3)]
      (by decide) "c").2.2.1 true rfl
  · exact (normalize_settings_behavior [("a", PyVal.none), ("b", PyVal.str " "),
      ("c", PyVal.bool true), ("d", PyVal.str "x"), ("e", PyVal.int 3)]
      (by decide) "a").1 rfl
  · exact (normalize_settings_behavior [("a", PyVal.none), ("b", PyVal.str " "),
      ("c", PyVal.bool true), ("d", PyVal.str "x"), ("e", PyVal.int 3)]
      (by decide) "e").2.2.2.2.1 3 rfl

/-- C3 counterexample: a boolean caller override does not survive to the
resolved settings verbatim; the pipeline resolves it to the string true,
so resolve(profile, overrides)[k] differs from overrides[k]. -/
theorem override_precedence_cex :
    alookup "support_enable"
        (normalize_settings (merge_settings [("layer_height", PyVal.float (1/5))]
          [("support_enable", PyVal.bool true)]))
      = some (PyVal.str "true")
  ∧ alookup "support_enable"
        (normalize_settings (merge_settings [("layer_height", PyVal.float (1/5))]
          [("support_enable", PyVal.bool true)]))
      ≠ some (PyVal.bool true) := by
  refine ⟨rfl, fun hc => ?_⟩
  have hc2 : some (PyVal.str "true") = some (PyVal.bool true) := hc
  exact PyVal.noConfusion (Option.some.inj hc2)

/-- C3 as amended: every key present in the caller overrides maps, in the
resolved settings (normalize of merge), to the caller's value passed
through the entry normalizer; in particular any override value that
normalization keeps verbatim (numbers, non-blank strings) resolves to
exactly the caller's value. -/
theorem override_precedence (base_settings overrides : SDict)
    (hb : (keysOf base_settings).Nodup) (ho : (keysOf overrides).Nodup)
    (k : String) (hk : k ∈ keysOf overrides) :
    alookup k (normalize_settings (merge_settings base_settings overrides))
      = (alookup k overrides).bind normalizeEntry
  ∧ ∀ v, alookup k overrides = some v → normalizeEntry v = some v →
      alookup k (normalize_settings (merge_settings base_settings overrides))
        = some v := by
  have hm := alookup_merge_of_mem overrides base_settings k ho hk
  have hn := alookup_normalize (merge_settings base_settings overrides)
      (nodup_keysOf_merge overrides base_settings hb) k
  constructor
  · rw [hn, hm]
  · intro v hv hfix
    rw [hn, hm, hv]
    simpa using hfix

/-- Witness for the amended C3: a numeric caller override wins over the
profile with its exact value. -/
theorem override_precedence_witness :
    alookup "infill_density" (normalize_settings (merge_settings
        [("infill_density", PyVal.int 20), ("layer_height", PyVal.str "0.2")]
        [("infill_density", PyVal.int 30)]))
      = some (PyVal.int 30) :=
  (override_precedence
      [("infill_density", PyVal.int 20), ("layer_height", PyVal.str "0.2")]
      [("infill_density", PyVal.int 30)]
      (by decide) (by decide) "infill_density" (by decide)).2
    (PyVal.int 30) rfl rfl

-- Skirt removal (C2) ------------------------------------------------------

theorem pyStartswith_of_skirt (l : String)
    (h : pyStartswith l ";TYPE:SKIRT" = true) :
    pyStartswith l ";TYPE:" = true := by
  simp only [pyStartswith, List.isPrefixOf_iff_prefix] at h ⊢
  exact List.IsPrefix.trans ⟨"SKIRT".toList, rfl⟩ h

/-- While suppression is active, every plain line is dropped and the first
feature-type or layer marker closes the region and is kept. -/
theorem removeSkirtSections_suppress (boundary : String) (rest : List String)
    (hb : pyStartswith boundary ";TYPE:" = true ∨
          pyStartswith boundary ";LAYER:" = true)
    (hbs : pyStartswith boundary ";TYPE:SKIRT" = false)
    (ms : List String)
    (hms : ∀ l ∈ ms, pyStartswith l ";TYPE:" = false ∧
        pyStartswith l ";LAYER:" = false) :
    removeSkirtSections true (ms ++ boundary :: rest)
      = boundary :: removeSkirtSections false rest := by
  induction ms with
  | nil =>
    rcases hb with hb | hb <;>
      simp [removeSkirtSections, hbs, hb]
  | cons m ms ih =>
    have hm := hms m (List.mem_cons_self m ms)
    have hmskirt : pyStartswith m ";TYPE:SKIRT" = false := by
      cases hsk : pyStartswith m ";TYPE:SKIRT" with
      | false => rfl
      | true => exact absurd (pyStartswith_of_skirt m hsk) (by simp [hm.1])
    simp only [List.cons_append, removeSkirtSections, hmskirt, hm.1, hm.2]
    simpa using ih (fun l hl => hms l (List.mem_cons_of_mem m hl))

/-- C2 counterexample: on the input named by the claim, skirt removal also
drops the skirt entry marker line; only the closing boundary marker
survives, so the output does not retain both marker lines. -/
theorem skirt_removal_cex :
    skirtRemove ";TYPE:SKIRT\nG1 X1 Y1\nG1 X2 Y2\n;TYPE:WALL-OUTER"
      = ";TYPE:WALL-OUTER"
  ∧ skirtRemove ";TYPE:SKIRT\nG1 X1 Y1\nG1 X2 Y2\n;TYPE:WALL-OUTER"
      ≠ ";TYPE:SKIRT\n;TYPE:WALL-OUTER" := by
  refine ⟨by decide, by decide⟩

/-- C2 as amended: for a skirt entry marker followed by N plain lines and
then a boundary marker (a new feature type or layer), skirt removal drops
the entry marker line together with the N lines between the markers and
keeps the boundary marker line, continuing normally afterwards. -/
theorem skirt_removal_amended (entry boundary : String)
    (mid rest : List String)
    (hentry : pyStartswith entry ";TYPE:SKIRT" = true)
    (hmid : ∀ l ∈ mid, pyStartswith l ";TYPE:" = false ∧
        pyStartswith l ";LAYER:" = false)
    (hb : pyStartswith boundary ";TYPE:" = true ∨
          pyStartswith boundary ";LAYER:" = true)
    (hbs : pyStartswith boundary ";TYPE:SKIRT" = false) :
    removeSkirtSections false (entry :: mid ++ boundary :: rest)
      = boundary :: removeSkirtSections false rest := by
  simp only [List.cons_append, removeSkirtSections, hentry, if_true]
  exact removeSkirtSections_suppress boundary rest hb hbs mid hmid

/-- Witness for the amended C2 at a concrete input. -/
theorem skirt_removal_amended_witness :
    removeSkirtSections false
        (";TYPE:SKIRT" :: ["G1 X1 Y1", "G1 X2 Y2"] ++ ";TYPE:WALL-OUTER" :: ["G1 X3"])
      = ";TYPE:WALL-OUTER" :: removeSkirtSections false ["G1 X3"] :=
  skirt_removal_amended ";TYPE:SKIRT" ";TYPE:WALL-OUTER"
    ["G1 X1 Y1", "G1 X2 Y2"] ["G1 X3"]
    (by decide) (by decide) (Or.inl (by decide)) (by decide)

-- Definition-override accessor (C10) --------------------------------------

theorem containsKey_eq_isSome (d : SDict) (k : String) :
    containsKey d k = (alookup k d).isSome := by
  induction d with
  | nil => rfl
  | cons kv rest ih =>
    cases kv with
    | mk k0 v0 =>
      by_cases h : k0 = k
      · simp [containsKey, alookup, h]
      · simp only [containsKey, alookup, List.any_cons] at ih ⊢
        simp [h, ih]

/-- C10 counterexample: a definition document that is valid JSON but whose
overrides member is a number makes the accessor raise a TypeError (the
membership test name in 5), so the accessor does not return the
caller-supplied default for every malformed document. -/
theorem override_accessor_cex :
    overrideAccessor (some (PyVal.dict [("overrides", PyVal.int 5)]))
        "machine_width" (PyVal.int 220)
      = Except.error PyErr.typeError := rfl

/-- C10 as amended: provided the loaded document is a JSON object whose
overrides member (when present) is itself an object — which covers every
missing, unreadable or malformed file, since the loader then yields an
empty object — the accessor never raises: it returns the value field of
the named entry when present (preferred over default_value), else the
default_value field, and the caller-supplied default when the entry is
absent, is not an object, or has neither field. -/
theorem override_accessor_amended (parsed : Option PyVal) (name : String)
    (d : PyVal) (m ov : List (String × PyVal))
    (hm : load_json parsed = PyVal.dict m)
    (hov : (alookup "overrides" m).getD (PyVal.dict []) = PyVal.dict ov) :
    overrideAccessor parsed name d
      = Except.ok (match alookup name ov with
          | some (PyVal.dict e) =>
            (match alookup "value" e with
             | some v => v
             | Option.none => (alookup "default_value" e).getD d)
          | some _ => d
          | Option.none => d) := by
  have hck := containsKey_eq_isSome ov name
  unfold overrideAccessor
  rw [hm]
  cases halo : alookup name ov with
  | none =>
    have hcf : containsKey ov name = false := by rw [hck, halo]; rfl
    simp [get_override_value, pyDictGet, hov, pyContainsStr, hcf]
  | some e =>
    have hct : containsKey ov name = true := by rw [hck, halo]; rfl
    simp only [get_override_value, pyDictGet, hov, pyContainsStr,
      pySubscriptStr, hct, halo, if_true]
    cases e with
    | dict m2 =>
      cases hv : alookup "value" m2 with
      | none => cases hdv : alookup "default_value" m2 <;> simp [hv, hdv]
      | some v => simp [hv]
    | none => rfl
    | bool b => rfl
    | int n => rfl
    | float q => rfl
    | str s => rfl
    | list xs => rfl

/-- Witness for the amended C10: with both value and default_value
present, value is returned; and a missing file yields the default. -/
theorem override_accessor_amended_witness :
    overrideAccessor (some (PyVal.dict [("overrides", PyVal.dict
        [("machine_width", PyVal.dict
          [("value", PyVal.int 220), ("default_value", PyVal.int 999)])])]))
        "machine_width" (PyVal.int 0)
      = Except.ok (PyVal.int 220)
  ∧ overrideAccessor Option.none "machine_depth" (PyVal.int 220)
      = Except.ok (PyVal.int 220) := by
  constructor
  · exact override_accessor_amended _ "machine_width" (PyVal.int 0)
      [("overrides", PyVal.dict [("machine_width", PyVal.dict
        [("value", PyVal.int 220), ("default_value", PyVal.int 999)])])]
      [("machine_width", PyVal.dict
        [("value", PyVal.int 220), ("default_value", PyVal.int 999)])]
      rfl rfl
  · exact override_accessor_amended Option.none "machine_depth"
      (PyVal.int 220) [] [] rfl rfl

-- Safe start-sequence geometry (C8) ----------------------------------------

/-- C8: whenever the machine definition resolves machine_width and
machine_depth to 220, the synthesized start-sequence geometry keeps both
purge-stroke X-coordinates inside the band from marginX = 2 to
marginX + 0.4 = 2.4, puts the front purge Y at exactly 20 and the back
purge Y at exactly depth - 20 = 200. -/
theorem safe_start_geometry (def_json : PyVal) (fs : SDict)
    (wv dv : PyVal) (w d : ℚ)
    (x1 x2 yFront yBack : ℚ) (temp : Int)
    (hw : get_override_value def_json "machine_width" (PyVal.int 220)
        = Except.ok wv)
    (hwf : pyFloatConv wv = Except.ok w)
    (hd : get_override_value def_json "machine_depth" (PyVal.int 220)
        = Except.ok dv)
    (hdf : pyFloatConv dv = Except.ok d)
    (hdepth : d = 220)
    (hc : computeSafeStartData def_json fs
        = Except.ok (x1, x2, yFront, yBack, temp)) :
    (2 ≤ x1 ∧ x1 ≤ 12/5) ∧ (2 ≤ x2 ∧ x2 ≤ 12/5)
      ∧ yFront = 20 ∧ yBack = 200 := by
  unfold computeSafeStartData at hc
  rw [hw] at hc
  simp only [hwf] at hc
  rw [hd] at hc
  simp only [hdf] at hc
  cases htemp : pyIntConv ((alookup "material_print_temperature_layer_0"
      fs).getD (PyVal.int 215)) with
  | error e => rw [htemp] at hc; cases hc
  | ok tv =>
    rw [htemp] at hc
    simp only [Except.ok.injEq, Prod.mk.injEq] at hc
    obtain ⟨hx1, hx2, hy1, hy2, -⟩ := hc
    subst hdepth
    refine ⟨?_, ?_, ?_, ?_⟩
    · rw [← hx1]; norm_num [marginX]
    · rw [← hx2]; norm_num [marginX]
    · rw [← hy1]; norm_num [marginY]
    · rw [← hy2]; norm_num [marginY]

/-- Witness for C8 at a concrete 220 x 220 machine definition. -/
theorem safe_start_geometry_witness :
    ((2:ℚ) ≤ marginX ∧ marginX ≤ 12/5)
  ∧ ((2:ℚ) ≤ marginX + 4/10 ∧ marginX + 4/10 ≤ 12/5)
  ∧ marginY = (20:ℚ)
  ∧ (((220 : Int) : ℚ) - marginY) = 200 :=
  safe_start_geometry
    (PyVal.dict [("overrides", PyVal.dict
      [("machine_width", PyVal.dict [("value", PyVal.int 220)]),
       ("machine_depth", PyVal.dict [("default_value", PyVal.int 220)])])])
    [] (PyVal.int 220) (PyVal.int 220) ((220 : Int) : ℚ) ((220 : Int) : ℚ)
    marginX (marginX + 4/10) marginY (((220 : Int) : ℚ) - marginY) 215
    rfl rfl rfl rfl (by norm_num) rfl

-- Invocation vector (C6) ---------------------------------------------------

theorem settings_foldl_eq_flatMap (l : SDict) :
    ∀ acc : List String,
      l.foldl (fun acc kv => acc ++ ["-s", kv.1 ++ "=" ++ safeVal kv.2]) acc
        = acc ++ l.flatMap (fun kv => ["-s", kv.1 ++ "=" ++ safeVal kv.2]) := by
  induction l with
  | nil => intro acc; simp
  | cons kv rest ih =>
    intro acc
    simp only [List.foldl_cons, List.flatMap_cons, ih, List.append_assoc]

theorem buildCommand_eq (a b c d e f : String) (fs : SDict) :
    buildCommand a b c d e f fs
      = ["CuraEngine", "slice", "-v", "-j", a, "-j", b, "-j", c, "-j", d,
          "-o", e, "-l", f]
        ++ fs.flatMap (fun kv => ["-s", kv.1 ++ "=" ++ safeVal kv.2]) := by
  simp [buildCommand, settings_foldl_eq_flatMap]

/-- C6: every successfully prepared invocation is the fixed prefix engine
binary, slice subcommand, verbosity flag, the four -j definition paths in
stack order (base machine fdmprinter, base extruder fdmextruder, specific
extruder, specific machine), then -o output, -l input, followed by one -s
key=value argument per resolved-setting entry; the prefix, and so the -j
order, never depends on the settings. -/
theorem invocation_vector_shape (env : SliceEnv) (settings : Option SDict)
    (stlPath : String) (cmd : List String) (fs : SDict)
    (h : slicePrepare env settings stlPath = Except.ok (cmd, fs)) :
    cmd = ["CuraEngine", "slice", "-v",
      "-j", baseDefPathOf env,
      "-j", fdmExtruderBasePathOf env,
      "-j", extruderDefPathOf env,
      "-j", printerDefPathOf env,
      "-o", gcodePathOf stlPath,
      "-l", stlPath]
    ++ fs.flatMap (fun kv => ["-s", kv.1 ++ "=" ++ safeVal kv.2]) := by
  unfold slicePrepare at h
  cases hchk : checkDefinitions env.defExists [baseDefPathOf env,
      printerDefPathOf env, fdmExtruderBasePathOf env,
      extruderDefPathOf env] with
  | error e => rw [hchk] at h; cases h
  | ok u =>
    rw [hchk] at h
    cases hsg : startGcodeStep (settings.getD []) env
        (applyDefaults (settings.getD [])
          (normalize_settings
            (merge_settings (resolvedProfile env).1 (settings.getD [])))) with
    | error e => rw [hsg] at h; cases h
    | ok fsF =>
      rw [hsg] at h
      simp only [Except.ok.injEq, Prod.mk.injEq] at h
      obtain ⟨hcmd, hfs⟩ := h
      subst hfs
      rw [← hcmd]
      exact buildCommand_eq _ _ _ _ _ _ _

/-- Witness for C6: the concrete vector produced for an empty profile with
a caller-supplied start G-code. -/
theorem invocation_vector_shape_witness :
    (["CuraEngine", "slice", "-v",
      "-j", "/opt/cura-resources/definitions/fdmprinter.def.json",
      "-j", "/opt/cura-resources/definitions/fdmextruder.def.json",
      "-j", "/opt/cura-resources/extruders/creality_base_extruder_0.def.json",
      "-j", "/opt/cura-resources/definitions/creality_ender3v3ke.def.json",
      "-o", "/app/jobs/job.gcode",
      "-l", "/app/jobs/job.stl",
      "-s", "machine_start_gcode=G28",
      "-s", "roofing_layer_count=0",
      "-s", "flooring_layer_count=0",
      "-s", "adhesion_type=none",
      "-s", "brim_line_count=0",
      "-s", "skirt_line_count=0",
      "-s", "speed_infill=120",
      "-s", "speed_wall_0=60",
      "-s", "speed_wall_x=120",
      "-s", "speed_travel=200",
      "-s", "material_print_temperature_layer_0=215",
      "-s", "machine_center_is_zero=False"] : List String)
    = ["CuraEngine", "slice", "-v",
      "-j", baseDefPathOf ⟨some ⟨[], Option.none⟩, fun _ => true,
          Option.none, "/opt/cura-resources"⟩,
      "-j", fdmExtruderBasePathOf ⟨some ⟨[], Option.none⟩, fun _ => true,
          Option.none, "/opt/cura-resources"⟩,
      "-j", extruderDefPathOf ⟨some ⟨[], Option.none⟩, fun _ => true,
          Option.none, "/opt/cura-resources"⟩,
      "-j", printerDefPathOf ⟨some ⟨[], Option.none⟩, fun _ => true,
          Option.none, "/opt/cura-resources"⟩,
      "-o", gcodePathOf "/app/jobs/job.stl",
      "-l", "/app/jobs/job.stl"]
    ++ ([("machine_start_gcode", PyVal.str "G28"),
        ("roofing_layer_count", PyVal.int 0),
        ("flooring_layer_count", PyVal.int 0),
        ("adhesion_type", PyVal.str "none"),
        ("brim_line_count", PyVal.int 0),
        ("skirt_line_count", PyVal.int 0),
        ("speed_infill", PyVal.int 120),
        ("speed_wall_0", PyVal.int 60),
        ("speed_wall_x", PyVal.int 120),
        ("speed_travel", PyVal.int 200),
        ("material_print_temperature_layer_0", PyVal.int 215),
        ("machine_center_is_zero", PyVal.bool false)] : SDict).flatMap
        (fun kv => ["-s", kv.1 ++ "=" ++ safeVal kv.2]) :=
  invocation_vector_shape
    ⟨some ⟨[], Option.none⟩, fun _ => true, Option.none, "/opt/cura-resources"⟩
    (some [("machine_start_gcode", PyVal.str "G28")]) "/app/jobs/job.stl"
    _ _ rfl

-- Definition-stack fail-fast (C7) ------------------------------------------

theorem checkDefinitions_fails (ex : String → Bool) (ps : List String)
    (h : ∃ p, p ∈ ps ∧ ex p = false) :
    ∃ q, q ∈ ps ∧ ex q = false
      ∧ checkDefinitions ex ps
          = Except.error (SliceError.definitionNotFound q) := by
  induction ps with
  | nil => obtain ⟨p, hp, _⟩ := h; cases hp
  | cons a ps ih =>
    cases ha : ex a with
    | true =>
      obtain ⟨p, hp, hep⟩ := h
      rcases List.mem_cons.mp hp with heq | hpps
      · subst heq; rw [ha] at hep; cases hep
      · obtain ⟨q, hq, heq, hres⟩ := ih ⟨p, hpps, hep⟩
        refine ⟨q, List.mem_cons_of_mem _ hq, heq, ?_⟩
        simp [checkDefinitions, ha, hres]
    | false =>
      refine ⟨a, List.mem_cons_self a ps, ha, ?_⟩
      simp [checkDefinitions, ha]

/-- C7: as soon as any one of the four required definition documents is
missing, preparation fails with DefinitionNotFound naming a missing path,
whatever the other three look like, and the whole pipeline surfaces that
error with the disk untouched — the engine is never reached. -/
theorem definition_stack_fail_fast (env : SliceEnv) (renv : RunEnv)
    (settings : Option SDict) (stlPath disk : String) (p : String)
    (hp : p ∈ [baseDefPathOf env, printerDefPathOf env,
        fdmExtruderBasePathOf env, extruderDefPathOf env])
    (hmiss : env.defExists p = false) :
    ∃ q, q ∈ [baseDefPathOf env, printerDefPathOf env,
        fdmExtruderBasePathOf env, extruderDefPathOf env]
      ∧ env.defExists q = false
      ∧ slicePrepare env settings stlPath
          = Except.error (SliceError.definitionNotFound q)
      ∧ slice_stl_to_gcode env renv settings stlPath disk
          = (Except.error (SliceError.definitionNotFound q), disk) := by
  obtain ⟨q, hq, heq, hres⟩ :=
    checkDefinitions_fails env.defExists _ ⟨p, hp, hmiss⟩
  have hsp : slicePrepare env settings stlPath
      = Except.error (SliceError.definitionNotFound q) := by
    unfold slicePrepare
    rw [hres]
  refine ⟨q, hq, heq, hsp, ?_⟩
  unfold slice_stl_to_gcode
  rw [hsp]

/-- Witness for C7: the base machine definition is missing while the
other three exist. -/
theorem definition_stack_fail_fast_witness :
    ∃ q, q ∈ [baseDefPathOf ⟨Option.none,
          fun s => !(s == "/opt/cura-resources/definitions/fdmprinter.def.json"),
          Option.none, "/opt/cura-resources"⟩,
        printerDefPathOf ⟨Option.none,
          fun s => !(s == "/opt/cura-resources/definitions/fdmprinter.def.json"),
          Option.none, "/opt/cura-resources"⟩,
        fdmExtruderBasePathOf ⟨Option.none,
          fun s => !(s == "/opt/cura-resources/definitions/fdmprinter.def.json"),
          Option.none, "/opt/cura-resources"⟩,
        extruderDefPathOf ⟨Option.none,
          fun s => !(s == "/opt/cura-resources/definitions/fdmprinter.def.json"),
          Option.none, "/opt/cura-resources"⟩]
      ∧ SliceEnv.defExists ⟨Option.none,
          fun s => !(s == "/opt/cura-resources/definitions/fdmprinter.def.json"),
          Option.none, "/opt/cura-resources"⟩ q = false
      ∧ slicePrepare ⟨Option.none,
          fun s => !(s == "/opt/cura-resources/definitions/fdmprinter.def.json"),
          Option.none, "/opt/cura-resources"⟩ Option.none "/app/jobs/job.stl"
          = Except.error (SliceError.definitionNotFound q)
      ∧ slice_stl_to_gcode ⟨Option.none,
          fun s => !(s == "/opt/cura-resources/definitions/fdmprinter.def.json"),
          Option.none, "/opt/cura-resources"⟩
          ⟨0, "", true, true, true, true, Option.none⟩
          Option.none "/app/jobs/job.stl" ""
          = (Except.error (SliceError.definitionNotFound q), "") :=
  definition_stack_fail_fast
    ⟨Option.none,
      fun s => !(s == "/opt/cura-resources/definitions/fdmprinter.def.json"),
      Option.none, "/opt/cura-resources"⟩
    ⟨0, "", true, true, true, true, Option.none⟩
    Option.none "/app/jobs/job.stl" ""
    (baseDefPathOf ⟨Option.none,
      fun s => !(s == "/opt/cura-resources/definitions/fdmprinter.def.json"),
      Option.none, "/opt/cura-resources"⟩)
    (List.mem_cons_self _ _) (by decide)

-- Missing profile fallback (C1) --------------------------------------------

/-- C1 counterexample: with the requested profile file absent and every
definition document present, the pipeline raises nothing: preparation
succeeds and the engine stage runs, returning the artifact path, so the
engine is executed for such a request. -/
theorem profile_fallback_cex :
    (slicePrepare (⟨Option.none, fun _ => true, Option.none,
        "/opt/cura-resources"⟩ : SliceEnv) Option.none
        "/app/jobs/job.stl").isOk = true
  ∧ (slice_stl_to_gcode (⟨Option.none, fun _ => true, Option.none,
        "/opt/cura-resources"⟩ : SliceEnv)
      (⟨0, "", true, true, true, true, Option.none⟩ : RunEnv)
      Option.none "/app/jobs/job.stl" "").1
      = Except.ok "/app/jobs/job.gcode" :=
  ⟨rfl, rfl⟩

/-- C1 as amended: for a request naming a profile whose file is absent,
get_profile_settings itself fails with ProfileNotFound, but
slice_stl_to_gcode catches the failure and falls back to empty base
settings with the default printer definition — preparation behaves
exactly as for an empty profile document — and, with every definition
file present and no overrides, preparation succeeds, so the engine is
still invoked. -/
theorem profile_fallback_amended (env : SliceEnv) (settings : Option SDict)
    (stlPath : String)
    (hprof : env.profileDoc = Option.none)
    (hex : ∀ p, env.defExists p = true)
    (hpd : env.printerDefParse = Option.none) :
    get_profile_settings Option.none = Except.error SliceError.profileNotFound
  ∧ slicePrepare env settings stlPath
      = slicePrepare { env with profileDoc := some ⟨[], Option.none⟩ }
          settings stlPath
  ∧ (slicePrepare env Option.none stlPath).isOk = true := by
  refine ⟨rfl, ?_, ?_⟩
  · simp [slicePrepare, baseDefPathOf, printerDefPathOf,
      fdmExtruderBasePathOf, extruderDefPathOf, definitionsDir, extrudersDir,
      resolvedProfile, get_profile_settings, hprof, startGcodeStep]
  · have hrp : resolvedProfile env = ([], defaultPrinterDefinition) := by
      simp [resolvedProfile, get_profile_settings, hprof]
    have hchk : checkDefinitions env.defExists
        [baseDefPathOf env, printerDefPathOf env, fdmExtruderBasePathOf env,
         extruderDefPathOf env] = Except.ok () := by
      simp [checkDefinitions, hex]
    unfold slicePrepare
    rw [hchk, hrp]
    unfold startGcodeStep
    rw [hpd]
    rfl

/-- Witness for the amended C1 at a concrete environment. -/
theorem profile_fallback_amended_witness :
    get_profile_settings Option.none = Except.error SliceError.profileNotFound
  ∧ slicePrepare ⟨Option.none, fun _ => true, Option.none,
        "/opt/cura-resources"⟩ Option.none "/app/jobs/job.stl"
      = slicePrepare ⟨some ⟨[], Option.none⟩, fun _ => true, Option.none,
          "/opt/cura-resources"⟩ Option.none "/app/jobs/job.stl"
  ∧ (slicePrepare ⟨Option.none, fun _ => true, Option.none,
        "/opt/cura-resources"⟩ Option.none "/app/jobs/job.stl").isOk = true :=
  profile_fallback_amended
    ⟨Option.none, fun _ => true, Option.none, "/opt/cura-resources"⟩
    Option.none "/app/jobs/job.stl" rfl (fun _ => rfl) rfl

-- Best-effort post-processing (C9) -----------------------------------------

/-- C9: whenever the engine run succeeds (zero exit, artifact present),
the stage always returns the artifact path no matter which internal
post-processing operation fails, and the on-disk text is the original,
the substituted, or the substituted-then-skirt-cleaned text; moreover
when the skirt-step write fails the disk holds at most the substitution
result, so a failure aborts only its own transformation step. -/
theorem post_processing_best_effort (renv : RunEnv) (fs : SDict)
    (gcodePath disk : String)
    (hexit : renv.engineExit = 0) (hout : renv.outputExists = true) :
    (runEngineAndPost renv fs gcodePath disk).1 = Except.ok gcodePath
  ∧ ((runEngineAndPost renv fs gcodePath disk).2 = disk
     ∨ ∃ t, postSubstitutions (load_json renv.printerDefParse) fs disk
            = Except.ok t
         ∧ ((runEngineAndPost renv fs gcodePath disk).2 = t
            ∨ (runEngineAndPost renv fs gcodePath disk).2 = skirtRemove t))
  ∧ (renv.write2Ok = false →
      ((runEngineAndPost renv fs gcodePath disk).2 = disk
       ∨ ∃ t, postSubstitutions (load_json renv.printerDefParse) fs disk
              = Except.ok t
           ∧ (runEngineAndPost renv fs gcodePath disk).2 = t)) := by
  have hrun : runEngineAndPost renv fs gcodePath disk
      = (Except.ok gcodePath, postPhase renv fs disk) := by
    simp [runEngineAndPost, hexit, hout]
  have hcase : postPhase renv fs disk = disk
      ∨ ∃ t, postSubstitutions (load_json renv.printerDefParse) fs disk
            = Except.ok t
          ∧ (postPhase renv fs disk = t
             ∨ (renv.write2Ok = true
                ∧ postPhase renv fs disk = skirtRemove t)) := by
    unfold postPhase
    by_cases hr : renv.readOk = true
    · simp only [hr, if_true]
      cases hsub : postSubstitutions (load_json renv.printerDefParse)
          fs disk with
      | error e => exact Or.inl rfl
      | ok t =>
        by_cases hnt : t = disk
        · subst hnt
          simp only [if_pos rfl]
          unfold skirtPhase
          by_cases hst : skirtRemove t = t
          · exact Or.inl (by simp [hst])
          · by_cases hw2 : renv.write2Ok = true
            · exact Or.inr ⟨t, rfl, Or.inr ⟨hw2, by simp [hst, hw2]⟩⟩
            · exact Or.inl (by simp [hst, hw2])
        · simp only [if_neg hnt]
          by_cases hw1 : renv.write1Ok = true
          · simp only [hw1, if_true]
            unfold skirtPhase
            by_cases hst : skirtRemove t = t
            · exact Or.inr ⟨t, rfl, Or.inl (by simp [hst])⟩
            · by_cases hw2 : renv.write2Ok = true
              · exact Or.inr ⟨t, rfl, Or.inr ⟨hw2, by simp [hst, hw2]⟩⟩
              · exact Or.inr ⟨t, rfl, Or.inl (by simp [hst, hw2])⟩
          · simp only [hw1]
            exact Or.inl (by simp)
    · simp only [hr]
      exact Or.inl (by simp)
  refine ⟨by rw [hrun], ?_, ?_⟩
  · rcases hcase with h | ⟨t, hsub, h2⟩
    · exact Or.inl (by rw [hrun]; exact h)
    · refine Or.inr ⟨t, hsub, ?_⟩
      rcases h2 with h2 | ⟨hw2, h2⟩
      · exact Or.inl (by rw [hrun]; exact h2)
      · exact Or.inr (by rw [hrun]; exact h2)
  · intro hw2f
    rcases hcase with h | ⟨t, hsub, h2⟩
    · exact Or.inl (by rw [hrun]; exact h)
    · rcases h2 with h2 | ⟨hw2, h2⟩
      · exact Or.inr ⟨t, hsub, by rw [hrun]; exact h2⟩
      · rw [hw2f] at hw2; cases hw2

/-- Witness for C9: a successful engine run with both post-processing
writes failing still returns the artifact path. -/
theorem post_processing_best_effort_witness :
    (runEngineAndPost (⟨0, "", true, true, false, false, Option.none⟩ : RunEnv)
        [] "/app/jobs/job.gcode" "G28\n").1
      = Except.ok "/app/jobs/job.gcode" :=
  (post_processing_best_effort
      (⟨0, "", true, true, false, false, Option.none⟩ : RunEnv)
      [] "/app/jobs/job.gcode" "G28\n" rfl rfl).1
